import Mathlib

/-!
Verification of the document-chunking and signal-scoring subsystem of the
evidence-collection repository (case_study2).

The Python source is shallowly embedded: machine floats become exact
rationals (ℚ), Python `round(x, 1)` becomes `roundTo1`, fallible
constructions (pydantic validation, enum attribute lookup) become
`Option`-returning functions, and the chunking while-loop becomes a
fuel-indexed recursion whose fuel (number of words + 1) dominates the
iteration count whenever `chunk_overlap < chunk_size`, the documented
precondition of the source.
-/

namespace CaseStudy

/-- Python's substring test `kw in text`, on the underlying character lists. -/
def containsSub (text kw : String) : Bool :=
  decide (kw.data <:+: text.data)

/-- Python's `text.lower()`, character by character (ASCII suffices for the
fixed keyword tables). -/
def pyLower (s : String) : String :=
  String.mk (s.data.map Char.toLower)

/-- Python's `round(q, 1)`: round to one decimal place.  (Mathlib's `round`
rounds half up while CPython rounds half to even; no claim in scope touches
an exact half-tie at the first decimal.) -/
def roundTo1 (q : ℚ) : ℚ :=
  (round (q * 10) : ℚ) / 10

/-- Whitespace-run splitting on the character list (`acc` holds the
current word, reversed). -/
def pySplitChars : List Char → List Char → List String
  | [], acc => if acc.isEmpty then [] else [String.mk acc.reverse]
  | c :: cs, acc =>
    if c.isWhitespace then
      (if acc.isEmpty then [] else [String.mk acc.reverse]) ++
        pySplitChars cs []
    else pySplitChars cs (c :: acc)

/-- Python's `text.split()`: split on whitespace runs, dropping empties. -/
def pySplit (s : String) : List String :=
  pySplitChars s.data []

/-! ## app/models/signal.py -/

/-- `SignalCategory(str, Enum)` from app/models/signal.py. -/
inductive SignalCategory where
  | technology_hiring
  | innovation_activity
  | digital_presence
  | leadership_signals
deriving DecidableEq, Repr

/-- `SignalSource(str, Enum)` from app/models/signal.py: its seven members. -/
inductive SignalSource where
  | linkedin
  | indeed
  | glassdoor
  | uspto
  | builtwith
  | press_release
  | company_website
deriving DecidableEq, Repr

/-- Python attribute lookup `getattr(SignalSource, name)`: `some` for the
seven defined members, `none` (AttributeError) for anything else. -/
def SignalSource.attr : String → Option SignalSource
  | "LINKEDIN" => some .linkedin
  | "INDEED" => some .indeed
  | "GLASSDOOR" => some .glassdoor
  | "USPTO" => some .uspto
  | "BUILTWITH" => some .builtwith
  | "PRESS_RELEASE" => some .press_release
  | "COMPANY_WEBSITE" => some .company_website
  | _ => none

/-- The member names of the `SignalSource` enum in app/models/signal.py. -/
def signalSourceMembers : List String :=
  ["LINKEDIN", "INDEED", "GLASSDOOR", "USPTO", "BUILTWITH",
   "PRESS_RELEASE", "COMPANY_WEBSITE"]

/-- `ExternalSignal` (app/models/signal.py).  UUIDs are opaque; datetime
fields carry no constraint and are omitted.  The free-form metadata dict is
kept abstract as an association list. -/
structure ExternalSignal where
  company_id : Nat
  category : SignalCategory
  source : SignalSource
  signal_date : Int
  raw_value : String
  normalized_score : ℚ
  confidence : ℚ
  metadata : List (String × String)
deriving DecidableEq, Repr

/-- Pydantic construction of `ExternalSignal`.  `company_id : UUID` is a
required field with no default and no `Optional`, so passing `None` fails
validation; `normalized_score` is constrained to [0,100] and `confidence`
to [0,1] by `Field(ge=..., le=...)`. -/
def mkExternalSignal (company_id : Option Nat) (category : SignalCategory)
    (source : SignalSource) (signal_date : Int) (raw_value : String)
    (normalized_score confidence : ℚ) (metadata : List (String × String)) :
    Option ExternalSignal :=
  match company_id with
  | none => none
  | some cid =>
    if 0 ≤ normalized_score ∧ normalized_score ≤ 100 ∧
        0 ≤ confidence ∧ confidence ≤ 1 then
      some { company_id := cid, category, source, signal_date, raw_value,
             normalized_score, confidence, metadata }
    else none

/-- `CompanySignalSummary` (app/models/signal.py). -/
structure CompanySignalSummary where
  company_id : Nat
  ticker : String
  technology_hiring_score : ℚ
  innovation_activity_score : ℚ
  digital_presence_score : ℚ
  leadership_signals_score : ℚ
  composite_score : ℚ
  signal_count : Int
  last_updated : Int
deriving DecidableEq, Repr

/-- Pydantic construction of `CompanySignalSummary`: field constraints
(each score and the supplied composite in [0,100]) are checked first, then
the `@model_validator(mode='after')` `calculate_composite` overwrites
`composite_score` with the fixed weighted sum of the four category
scores. -/
def mkCompanySignalSummary (company_id : Nat) (ticker : String)
    (th ia dp ls comp : ℚ) (signal_count last_updated : Int) :
    Option CompanySignalSummary :=
  if 0 ≤ th ∧ th ≤ 100 ∧ 0 ≤ ia ∧ ia ≤ 100 ∧ 0 ≤ dp ∧ dp ≤ 100 ∧
      0 ≤ ls ∧ ls ≤ 100 ∧ 0 ≤ comp ∧ comp ≤ 100 then
    some { company_id, ticker,
           technology_hiring_score := th,
           innovation_activity_score := ia,
           digital_presence_score := dp,
           leadership_signals_score := ls,
           composite_score := 0.30 * th + 0.25 * ia + 0.25 * dp + 0.20 * ls,
           signal_count, last_updated }
  else none

/-- The composite recomputation in `SnowflakeService.update_signal_summary`
(app/services/snowflake.py, lines 278-284): the same fixed weighted sum of
the four per-category averages. -/
def snowflakeComposite (th ia dp ls : ℚ) : ℚ :=
  0.30 * th + 0.25 * ia + 0.25 * dp + 0.20 * ls

/-! ## scripts/generate_report.py -/

/-- Renormalized weight for technology hiring (generate_report.py line 22). -/
def W_TECH : ℚ := 0.30 / 0.80

/-- Renormalized weight for innovation (generate_report.py line 23). -/
def W_INNOVATION : ℚ := 0.25 / 0.80

/-- Renormalized weight for digital presence (generate_report.py line 24). -/
def W_DIGITAL : ℚ := 0.25 / 0.80

/-- The leadership-excluded composite computed per report row
(generate_report.py line 58): `round(W_TECH*th + W_INNOVATION*ia +
W_DIGITAL*dp, 1)`. -/
def composite_without_leadership (th ia dp : ℚ) : ℚ :=
  roundTo1 (W_TECH * th + W_INNOVATION * ia + W_DIGITAL * dp)

/-! ## app/pipelines/job_signals.py -/

/-- `JobPosting` (app/pipelines/job_signals.py). -/
structure JobPosting where
  title : String
  company : String
  location : String
  description : String
  posted_date : Option String
  source : String
  url : String
  is_ai_related : Bool
  ai_skills : List String
deriving DecidableEq, Repr

/-- `JobSignalCollector.AI_KEYWORDS`. -/
def AI_KEYWORDS : List String :=
  ["machine learning", "ml engineer", "data scientist",
   "artificial intelligence", "deep learning", "nlp",
   "computer vision", "mlops", "ai engineer",
   "pytorch", "tensorflow", "llm", "large language model"]

/-- `JobSignalCollector.AI_SKILLS`. -/
def AI_SKILLS : List String :=
  ["python", "pytorch", "tensorflow", "scikit-learn",
   "spark", "hadoop", "kubernetes", "docker",
   "aws sagemaker", "azure ml", "gcp vertex",
   "huggingface", "langchain", "openai"]

/-- `JobSignalCollector.classify_posting`. -/
def classify_posting (posting : JobPosting) : JobPosting :=
  let text := pyLower (posting.title ++ " " ++ posting.description)
  { posting with
    is_ai_related := AI_KEYWORDS.any (fun kw => containsSub text kw),
    ai_skills := AI_SKILLS.filter (fun skill => containsSub text skill) }

/-- `JobSignalCollector._is_tech_job`. -/
def _is_tech_job (posting : JobPosting) : Bool :=
  ["engineer", "developer", "programmer", "software",
   "data", "analyst", "scientist", "technical"].any
    (fun kw => containsSub (pyLower posting.title) kw)

/-- Local `total_tech_jobs` of `analyze_job_postings` (line 54). -/
def total_tech_jobs (postings : List JobPosting) : Nat :=
  (postings.filter _is_tech_job).length

/-- Local `ai_jobs` of `analyze_job_postings` (line 55). -/
def ai_jobs (postings : List JobPosting) : Nat :=
  (postings.filter (fun p => p.is_ai_related)).length

/-- Local `ai_ratio` of `analyze_job_postings` (lines 58-61). -/
def ai_ratio (postings : List JobPosting) : ℚ :=
  if total_tech_jobs postings > 0 then
    (ai_jobs postings : ℚ) / (total_tech_jobs postings : ℚ)
  else 0

/-- Local `all_skills` of `analyze_job_postings` (lines 64-66); a Python
set, modelled by its distinct elements. -/
def all_skills (postings : List JobPosting) : List String :=
  (postings.flatMap (fun p => p.ai_skills)).eraseDups

/-- The `score` expression of `analyze_job_postings` (lines 72-76). -/
def job_postings_score (postings : List JobPosting) : ℚ :=
  min (ai_ratio postings * 60) 60 +
    min ((all_skills postings).length / 10 : ℚ) 1 * 20 +
    min ((ai_jobs postings : ℚ) / 5) 1 * 20

/-- `JobSignalCollector.analyze_job_postings` (lines 47-92): computes the
score, then constructs the `ExternalSignal` with `company_id=None`
("Set by caller"). -/
def analyze_job_postings (company : String) (now : Int)
    (postings : List JobPosting) : Option ExternalSignal :=
  let score := job_postings_score postings
  mkExternalSignal none .technology_hiring .indeed now
    (toString (ai_jobs postings) ++ "/" ++
      toString (total_tech_jobs postings) ++ " AI jobs")
    (roundTo1 score)
    (min (0.5 + (total_tech_jobs postings : ℚ) / 100) 0.95)
    [("total_tech_jobs", toString (total_tech_jobs postings)),
     ("ai_jobs", toString (ai_jobs postings))]

/-! ## app/pipelines/patent_signals.py -/

/-- `Patent` (app/pipelines/patent_signals.py); dates are days since an
arbitrary epoch. -/
structure Patent where
  patent_number : String
  title : String
  abstract : String
  filing_date : Int
  grant_date : Option Int
  inventors : List String
  assignee : String
  is_ai_related : Bool
  ai_categories : List String
deriving DecidableEq, Repr

/-- `PatentSignalCollector.AI_PATENT_KEYWORDS`. -/
def AI_PATENT_KEYWORDS : List String :=
  ["machine learning", "neural network", "deep learning",
   "artificial intelligence", "natural language processing",
   "computer vision", "reinforcement learning",
   "predictive model", "classification algorithm"]

/-- `PatentSignalCollector.classify_patent` (lines 191-210): keyword match
on lowercased title+abstract, plus fixed-substring category tags; the
patent is marked AI-related when the keyword match succeeds *or* at least
one category tag was assigned. -/
def classify_patent (patent : Patent) : Patent :=
  let text := pyLower (patent.title ++ " " ++ patent.abstract)
  let is_ai := AI_PATENT_KEYWORDS.any (fun kw => containsSub text kw)
  let categories :=
    (if containsSub text "neural network" || containsSub text "deep learning"
      then ["deep_learning"] else []) ++
    (if containsSub text "natural language" then ["nlp"] else []) ++
    (if containsSub text "computer vision" || containsSub text "image"
      then ["computer_vision"] else []) ++
    (if containsSub text "predictive" then ["predictive_analytics"] else [])
  { patent with
    is_ai_related := is_ai || categories.length > 0,
    ai_categories := categories }

/-- Local `ai_patents` of `analyze_patents` (lines 153-155). -/
def ai_patents (now years : Int) (patents : List Patent) : List Patent :=
  ((patents.filter (fun p => p.filing_date > now - years * 365)).filter
    (fun p => p.is_ai_related))

/-- Local `recent_ai` of `analyze_patents` (lines 162-163). -/
def recent_ai (now years : Int) (patents : List Patent) : List Patent :=
  (ai_patents now years patents).filter (fun p => p.filing_date > now - 365)

/-- Local `categories` set of `analyze_patents` (lines 165-167). -/
def patent_categories (now years : Int) (patents : List Patent) :
    List String :=
  ((ai_patents now years patents).flatMap (fun p => p.ai_categories)).eraseDups

/-- The `score` expression of `analyze_patents` (lines 169-173). -/
def patents_score (now years : Int) (patents : List Patent) : ℚ :=
  min ((ai_patents now years patents).length * 5 : ℚ) 50 +
    min ((recent_ai now years patents).length * 2 : ℚ) 20 +
    min ((patent_categories now years patents).length * 10 : ℚ) 30

/-- `PatentSignalCollector.analyze_patents` (lines 145-189): computes the
score, then looks up `SignalSource.LENS` while building the
`ExternalSignal` arguments — an attribute lookup that fails because the
enum has no `LENS` member. -/
def analyze_patents (company_id : Nat) (now : Int) (patents : List Patent)
    (years : Int) : Option ExternalSignal :=
  let score := patents_score now years patents
  match SignalSource.attr "LENS" with
  | none => none
  | some src =>
    mkExternalSignal (some company_id) .innovation_activity src now
      (toString (ai_patents now years patents).length ++ " AI patents in " ++
        toString years ++ " years")
      (roundTo1 score) 0.90
      [("total_patents", toString patents.length),
       ("ai_patents", toString (ai_patents now years patents).length)]

/-! ## app/pipelines/tech_signals.py -/

/-- `TechnologyDetection` (app/pipelines/tech_signals.py). -/
structure TechnologyDetection where
  name : String
  category : String
  is_ai_related : Bool
  confidence : ℚ
deriving DecidableEq, Repr

/-- Local `ai_techs` of `analyze_tech_stack` (line 118). -/
def ai_techs (technologies : List TechnologyDetection) :
    List TechnologyDetection :=
  technologies.filter (fun t => t.is_ai_related)

/-- Local `categories_found` of `analyze_tech_stack` (line 121). -/
def categories_found (technologies : List TechnologyDetection) :
    List String :=
  ((ai_techs technologies).map (fun t => t.category)).eraseDups

/-- The `score` expression of `analyze_tech_stack` (lines 126-129). -/
def tech_stack_score (technologies : List TechnologyDetection) : ℚ :=
  min ((ai_techs technologies).length * 10 : ℚ) 50 +
    min ((categories_found technologies).length * 12.5 : ℚ) 50

/-- `TechStackCollector.analyze_tech_stack` (lines 111-144). -/
def analyze_tech_stack (company_id : Nat) (now : Int)
    (technologies : List TechnologyDetection) : Option ExternalSignal :=
  mkExternalSignal (some company_id) .digital_presence .builtwith now
    (toString (ai_techs technologies).length ++ " AI technologies detected")
    (roundTo1 (tech_stack_score technologies)) 0.85
    [("total_technologies", toString technologies.length)]

/-! ## app/pipelines/leadership_signals.py -/

/-- `MIN_TEXT_LENGTH` (leadership_signals.py line 27): minimum characters
to accept a fetched page. -/
def MIN_TEXT_LENGTH : Nat := 80

/-- `LEADERSHIP_KEYWORDS` (leadership_signals.py lines 31-34). -/
def LEADERSHIP_KEYWORDS : List String :=
  ["executive", "ceo", "chief", "cfo", "cto", "board", "leadership",
   "management", "officer", "president", "director", "governance"]

/-- `COMMITMENT_KEYWORDS` (leadership_signals.py lines 37-40). -/
def COMMITMENT_KEYWORDS : List String :=
  ["ai", "artificial intelligence", "digital", "technology",
   "transformation", "innovation", "data", "automation",
   "machine learning", "cloud"]

/-- `LeadershipSignalCollector._score_leadership_text` (lines 127-147):
count keyword hits per dimension, cap each at 50, clamp the sum at 100,
round to one decimal; returns the score and the raw-value string (the
audit-metadata dict is omitted; no claim in scope depends on it). -/
def _score_leadership_text (text : String) : ℚ × String :=
  let lower := pyLower text
  let leadership_count :=
    (LEADERSHIP_KEYWORDS.filter (fun k => containsSub lower k)).length
  let commitment_count :=
    (COMMITMENT_KEYWORDS.filter (fun k => containsSub lower k)).length
  (roundTo1 (min (min ((leadership_count : ℚ) * 8) 50 +
      min ((commitment_count : ℚ) * 8) 50) 100),
   "leadership_mentions=" ++ toString leadership_count ++
     ", commitment_mentions=" ++ toString commitment_count)

/-- One text source handed to `analyze_leadership` (the dict produced by
the fetch step: "text" and "url" keys). -/
structure SourceData where
  text : String
  url : String
deriving DecidableEq, Repr

/-- Modelled from the spec: `ExternalSignalCreate` is imported by
leadership_signals.py from app/models/signal.py but is not defined in that
file; following §3's ExternalSignal description it is modelled as the
signal value object prior to id assignment.  The audit-metadata dict is
omitted; no claim in scope depends on it. -/
structure ExternalSignalCreate where
  company_id : Nat
  category : SignalCategory
  source : SignalSource
  signal_date : Int
  raw_value : String
  normalized_score : ℚ
  confidence : ℚ
deriving DecidableEq, Repr

/-- `LeadershipSignalCollector.analyze_leadership` (lines 149-193): one
signal per source whose dict is present with a truthy (non-empty) "text";
no length threshold is applied here. -/
def analyze_leadership (company_id : Nat) (now : Int)
    (website_data linkedin_data : Option SourceData) :
    List ExternalSignalCreate :=
  let s1 : List ExternalSignalCreate :=
    match website_data with
    | some d =>
      if d.text ≠ "" then
        [{ company_id, category := .leadership_signals,
           source := .company_website, signal_date := now,
           raw_value := (_score_leadership_text d.text).2.take 500,
           normalized_score := (_score_leadership_text d.text).1,
           confidence := 0.75 }]
      else []
    | none => []
  let s2 : List ExternalSignalCreate :=
    match linkedin_data with
    | some d =>
      if d.text ≠ "" then
        [{ company_id, category := .leadership_signals,
           source := .linkedin, signal_date := now,
           raw_value := (_score_leadership_text d.text).2.take 500,
           normalized_score := (_score_leadership_text d.text).1,
           confidence := 0.8 }]
      else []
    | none => []
  s1 ++ s2

/-! ## app/pipelines/document_parser.py -/

/-- `ParsedDocument` (document_parser.py).  `sections` is an
insertion-ordered Python dict, modelled as an association list; the filing
date is opaque. -/
structure ParsedDocument where
  company_ticker : String
  filing_type : String
  filing_date : Int
  content : String
  sections : List (String × String)
  source_path : String
  content_hash : String
  word_count : Nat
deriving DecidableEq, Repr

/-- `DocumentChunk` (document_parser.py).  The Python field `section` is a
Lean keyword, so it is named `sectionName` here. -/
structure DocumentChunk where
  document_id : String
  chunk_index : Nat
  content : String
  sectionName : Option String
  start_char : Nat
  end_char : Nat
  word_count : Nat
deriving DecidableEq, Repr

/-- `SemanticChunker` constructor parameters (document_parser.py
lines 233-241). -/
structure SemanticChunker where
  chunk_size : Nat
  chunk_overlap : Nat
  min_chunk_size : Nat
deriving DecidableEq, Repr

/-- The default configuration: chunk_size 1000, overlap 100, minimum 200. -/
def defaultChunker : SemanticChunker :=
  { chunk_size := 1000, chunk_overlap := 100, min_chunk_size := 200 }

/-- Local `end_idx` before the tiny-tail adjustment
(`min(start_idx + self.chunk_size, len(words))`, line 279). -/
def end_idx0 (ck : SemanticChunker) (words : List String) (start_idx : Nat) :
    Nat :=
  min (start_idx + ck.chunk_size) words.length

/-- Local `end_idx` after the tiny-tail adjustment (lines 279-283): when
the remaining words after the candidate end would form a final chunk
smaller than `min_chunk_size`, consume all remaining words. -/
def end_idx (ck : SemanticChunker) (words : List String) (start_idx : Nat) :
    Nat :=
  if words.length - end_idx0 ck words start_idx < ck.min_chunk_size then
    words.length
  else end_idx0 ck words start_idx

/-- The `DocumentChunk` built in one loop iteration (lines 285-300):
content joins `words[start_idx:end_idx]` with single spaces; character
offsets are approximated by re-joining the preceding words. -/
def mkChunk (ck : SemanticChunker) (doc_id : String) (sec : Option String)
    (words : List String) (start_idx chunk_index : Nat) : DocumentChunk :=
  let chunk_words := (words.drop start_idx).take (end_idx ck words start_idx - start_idx)
  let chunk_content := String.intercalate " " chunk_words
  let start_char := (String.intercalate " " (words.take start_idx)).length
  { document_id := doc_id, chunk_index := chunk_index,
    content := chunk_content, sectionName := sec, start_char := start_char,
    end_char := start_char + chunk_content.length,
    word_count := chunk_words.length }

/-- The while-loop of `SemanticChunker._chunk_text` (lines 278-307),
fuel-indexed for totality.  Each non-final iteration advances `start_idx`
by `chunk_size - chunk_overlap ≥ 1` whenever
`chunk_overlap < chunk_size` (the documented caller precondition), so a
fuel of `words.length + 1` is never exhausted in that regime and the
recursion coincides with the source loop; the loop emits a chunk and then
either breaks (`end_idx ≥ len(words)`) or continues at
`end_idx - chunk_overlap` with the chunk index incremented. -/
def chunkLoop (ck : SemanticChunker) (doc_id : String) (sec : Option String)
    (words : List String) : Nat → Nat → Nat → List DocumentChunk
  | 0, _, _ => []
  | fuel + 1, start_idx, chunk_index =>
    if start_idx < words.length then
      if words.length ≤ end_idx ck words start_idx then
        [mkChunk ck doc_id sec words start_idx chunk_index]
      else
        mkChunk ck doc_id sec words start_idx chunk_index ::
          chunkLoop ck doc_id sec words fuel
            (end_idx ck words start_idx - ck.chunk_overlap) (chunk_index + 1)
    else []

/-- `SemanticChunker._chunk_text` (lines 265-309): split into words, then
run the loop from word 0 with chunk index 0. -/
def _chunk_text (ck : SemanticChunker) (text doc_id : String)
    (sec : Option String) : List DocumentChunk :=
  let words := pySplit text
  chunkLoop ck doc_id sec words (words.length + 1) 0 0

/-- `SemanticChunker.chunk_document` (lines 243-263): chunk each section
separately (a fresh `_chunk_text` call per section), concatenating the
per-section chunk lists; when no sections were extracted, chunk the full
content as a single unnamed unit. -/
def chunk_document (ck : SemanticChunker) (doc : ParsedDocument) :
    List DocumentChunk :=
  if doc.sections.isEmpty then
    _chunk_text ck doc.content doc.content_hash none
  else
    doc.sections.flatMap
      (fun p => _chunk_text ck p.2 doc.content_hash (some p.1))

end CaseStudy

namespace CaseStudy

/-- C1: for every successfully constructed `CompanySignalSummary`, the
`composite_score` field equals `0.30*technology_hiring_score +
0.25*innovation_activity_score + 0.25*digital_presence_score +
0.20*leadership_signals_score`; the `calculate_composite` model validator
always recomputes it from the four category scores, so the composite can
never be set independently of them, whatever composite value the caller
supplied. -/
theorem composite_always_recomputed (cid : Nat) (tk : String)
    (th ia dp ls comp : ℚ) (sc lu : Int) (s : CompanySignalSummary)
    (h : mkCompanySignalSummary cid tk th ia dp ls comp sc lu = some s) :
    s.composite_score =
      0.30 * s.technology_hiring_score + 0.25 * s.innovation_activity_score +
        0.25 * s.digital_presence_score + 0.20 * s.leadership_signals_score := by
  unfold mkCompanySignalSummary at h
  split at h
  · cases h
    rfl
  · cases h

/-- The summary produced from category scores (50, 60, 70, 80), a
caller-supplied composite of 12, and 3 signals: the stored composite is
63.5, the weighted sum, not 12. -/
def exampleSummary : CompanySignalSummary :=
  { company_id := 0, ticker := "T", technology_hiring_score := 50,
    innovation_activity_score := 60, digital_presence_score := 70,
    leadership_signals_score := 80, composite_score := 63.5,
    signal_count := 3, last_updated := 0 }

/-- Witness for C1: a summary constructed with category scores
(50, 60, 70, 80) and a caller-supplied composite of 12 comes back with
composite 63.5, the weighted sum, not 12. -/
theorem composite_always_recomputed_witness :
    exampleSummary.composite_score =
      0.30 * exampleSummary.technology_hiring_score +
        0.25 * exampleSummary.innovation_activity_score +
        0.25 * exampleSummary.digital_presence_score +
        0.20 * exampleSummary.leadership_signals_score :=
  composite_always_recomputed 0 "T" 50 60 70 80 12 3 0 exampleSummary
    (by norm_num [mkCompanySignalSummary, exampleSummary])

lemma roundTo1_nonneg {q : ℚ} (h : 0 ≤ q) : 0 ≤ roundTo1 q := by
  unfold roundTo1
  apply div_nonneg _ (by norm_num)
  have : (0 : ℤ) ≤ round (q * 10) := by
    rw [round_eq]
    exact Int.le_floor.mpr (by push_cast; linarith)
  exact_mod_cast this

lemma roundTo1_le_100 {q : ℚ} (h : q ≤ 100) : roundTo1 q ≤ 100 := by
  unfold roundTo1
  rw [div_le_iff₀ (by norm_num : (0 : ℚ) < 10)]
  have : round (q * 10) ≤ 1000 := by
    rw [round_eq]
    have h2 : (⌊(2001 / 2 : ℚ)⌋ : ℤ) = 1000 := by
      rw [Int.floor_eq_iff]
      norm_num
    calc ⌊q * 10 + 1 / 2⌋ ≤ ⌊(2001 / 2 : ℚ)⌋ := Int.floor_le_floor (by linarith)
      _ = 1000 := h2
  calc (round (q * 10) : ℚ) ≤ (1000 : ℤ) := by exact_mod_cast this
    _ = 100 * 10 := by norm_num

lemma job_postings_score_bounds (postings : List JobPosting) :
    0 ≤ job_postings_score postings ∧ job_postings_score postings ≤ 100 := by
  have hr : 0 ≤ ai_ratio postings := by
    unfold ai_ratio
    split
    · positivity
    · exact le_refl 0
  unfold job_postings_score
  have t1l : (0 : ℚ) ≤ min (ai_ratio postings * 60) 60 :=
    le_min (by positivity) (by norm_num)
  have t1u : min (ai_ratio postings * 60) 60 ≤ 60 := min_le_right _ _
  have t2l : (0 : ℚ) ≤ min ((all_skills postings).length / 10 : ℚ) 1 :=
    le_min (by positivity) (by norm_num)
  have t2u : min ((all_skills postings).length / 10 : ℚ) 1 ≤ 1 :=
    min_le_right _ _
  have t3l : (0 : ℚ) ≤ min ((ai_jobs postings : ℚ) / 5) 1 :=
    le_min (by positivity) (by norm_num)
  have t3u : min ((ai_jobs postings : ℚ) / 5) 1 ≤ 1 := min_le_right _ _
  constructor
  · nlinarith
  · nlinarith

lemma patents_score_bounds (now years : Int) (patents : List Patent) :
    0 ≤ patents_score now years patents ∧
      patents_score now years patents ≤ 100 := by
  unfold patents_score
  have t1l : (0 : ℚ) ≤ min ((ai_patents now years patents).length * 5 : ℚ) 50 :=
    le_min (by positivity) (by norm_num)
  have t1u : min ((ai_patents now years patents).length * 5 : ℚ) 50 ≤ 50 :=
    min_le_right _ _
  have t2l : (0 : ℚ) ≤ min ((recent_ai now years patents).length * 2 : ℚ) 20 :=
    le_min (by positivity) (by norm_num)
  have t2u : min ((recent_ai now years patents).length * 2 : ℚ) 20 ≤ 20 :=
    min_le_right _ _
  have t3l : (0 : ℚ) ≤
      min ((patent_categories now years patents).length * 10 : ℚ) 30 :=
    le_min (by positivity) (by norm_num)
  have t3u : min ((patent_categories now years patents).length * 10 : ℚ) 30 ≤ 30 :=
    min_le_right _ _
  exact ⟨by linarith, by linarith⟩

lemma tech_stack_score_bounds (technologies : List TechnologyDetection) :
    0 ≤ tech_stack_score technologies ∧
      tech_stack_score technologies ≤ 100 := by
  unfold tech_stack_score
  have t1l : (0 : ℚ) ≤ min ((ai_techs technologies).length * 10 : ℚ) 50 :=
    le_min (by positivity) (by norm_num)
  have t1u : min ((ai_techs technologies).length * 10 : ℚ) 50 ≤ 50 :=
    min_le_right _ _
  have t2l : (0 : ℚ) ≤ min ((categories_found technologies).length * 12.5 : ℚ) 50 :=
    le_min (by positivity) (by norm_num)
  have t2u : min ((categories_found technologies).length * 12.5 : ℚ) 50 ≤ 50 :=
    min_le_right _ _
  exact ⟨by linarith, by linarith⟩

/-- C2: each of the four scoring functions yields a normalized score in
[0,100] for arbitrary observation lists (empty or adversarial): the hiring
score stays bounded even when `ai_jobs` exceeds `total_tech_jobs` (so
`ai_ratio > 1`), because every sub-score is capped before summation and
the caps sum to at most 100. -/
theorem scorers_bounded :
    (∀ postings : List JobPosting,
      0 ≤ roundTo1 (job_postings_score postings) ∧
        roundTo1 (job_postings_score postings) ≤ 100) ∧
    (∀ (now years : Int) (patents : List Patent),
      0 ≤ roundTo1 (patents_score now years patents) ∧
        roundTo1 (patents_score now years patents) ≤ 100) ∧
    (∀ technologies : List TechnologyDetection,
      0 ≤ roundTo1 (tech_stack_score technologies) ∧
        roundTo1 (tech_stack_score technologies) ≤ 100) ∧
    (∀ text : String,
      0 ≤ (_score_leadership_text text).1 ∧
        (_score_leadership_text text).1 ≤ 100) := by
  refine ⟨fun postings => ?_, fun now years patents => ?_,
    fun technologies => ?_, fun text => ?_⟩
  · obtain ⟨h0, h1⟩ := job_postings_score_bounds postings
    exact ⟨roundTo1_nonneg h0, roundTo1_le_100 h1⟩
  · obtain ⟨h0, h1⟩ := patents_score_bounds now years patents
    exact ⟨roundTo1_nonneg h0, roundTo1_le_100 h1⟩
  · obtain ⟨h0, h1⟩ := tech_stack_score_bounds technologies
    exact ⟨roundTo1_nonneg h0, roundTo1_le_100 h1⟩
  · unfold _score_leadership_text
    have hl : (0 : ℚ) ≤ min (min
        (((LEADERSHIP_KEYWORDS.filter
          (fun k => containsSub (pyLower text) k)).length : ℚ) * 8) 50 +
        min (((COMMITMENT_KEYWORDS.filter
          (fun k => containsSub (pyLower text) k)).length : ℚ) * 8) 50) 100 := by
      refine le_min (add_nonneg ?_ ?_) (by norm_num) <;>
        exact le_min (by positivity) (by norm_num)
    have hu : min (min
        (((LEADERSHIP_KEYWORDS.filter
          (fun k => containsSub (pyLower text) k)).length : ℚ) * 8) 50 +
        min (((COMMITMENT_KEYWORDS.filter
          (fun k => containsSub (pyLower text) k)).length : ℚ) * 8) 50) 100 ≤
          100 := min_le_right _ _
    exact ⟨roundTo1_nonneg hl, roundTo1_le_100 hu⟩

/-- A patent whose lowercased title+abstract contains the substring
"image" but none of the nine fixed AI keywords. -/
def imagePatent : Patent :=
  { patent_number := "1", title := "Image sensor", abstract := "",
    filing_date := 0, grant_date := none, inventors := [], assignee := "",
    is_ai_related := false, ai_categories := [] }

/-- C7 counterexample: `classify_patent` marks the "Image sensor" patent
AI-related (the category-tag substring rule "image" fires) even though its
title+abstract contains none of the fixed AI keywords, so keyword match is
not necessary for AI classification. -/
theorem classify_patent_counterexample :
    (classify_patent imagePatent).is_ai_related = true ∧
      AI_PATENT_KEYWORDS.any (fun kw =>
        containsSub (pyLower (imagePatent.title ++ " " ++
          imagePatent.abstract)) kw) = false := by
  constructor
  · decide
  · decide

/-- C7 amended: `classify_patent` marks a patent AI-related if and only if
the lowercased title+abstract contains one of the fixed AI keywords *or*
at least one category tag (deep_learning / nlp / computer_vision /
predictive_analytics, assigned by fixed substring rules such as "image"
and "predictive") applies. -/
theorem classify_patent_iff (patent : Patent) :
    (classify_patent patent).is_ai_related = true ↔
      (AI_PATENT_KEYWORDS.any (fun kw =>
        containsSub (pyLower (patent.title ++ " " ++ patent.abstract)) kw)
          = true ∨
       (classify_patent patent).ai_categories ≠ []) := by
  simp only [classify_patent, Bool.or_eq_true, decide_eq_true_eq,
    List.length_pos]

/-- C9: `analyze_job_postings` never successfully returns an
`ExternalSignal`: it always passes `company_id=None` to a required,
non-optional UUID field, so pydantic validation fails on every call,
whatever the company and posting list. -/
theorem analyze_job_postings_always_fails (company : String) (now : Int)
    (postings : List JobPosting) :
    analyze_job_postings company now postings = none := rfl

/-- Witness for C9: the failure is observable on a concrete call with an
empty posting list. -/
theorem analyze_job_postings_always_fails_witness :
    analyze_job_postings "ACME" 0 [] = none :=
  analyze_job_postings_always_fails "ACME" 0 []

/-- C10: `analyze_patents` never successfully returns: `LENS` is not a
member of the `SignalSource` enum (whose members are LINKEDIN, INDEED,
GLASSDOOR, USPTO, BUILTWITH, PRESS_RELEASE, COMPANY_WEBSITE), so the
attribute lookup `SignalSource.LENS` fails on every call — including the
empty patent list, for which the spec requires a well-defined zero-score
signal. -/
theorem analyze_patents_always_fails :
    SignalSource.attr "LENS" = none ∧
      "LENS" ∉ signalSourceMembers ∧
      ∀ (company_id : Nat) (now : Int) (patents : List Patent) (years : Int),
        analyze_patents company_id now patents years = none := by
  exact ⟨rfl, by decide, fun company_id now patents years => rfl⟩

lemma end_idx0_le (ck : SemanticChunker) (words : List String)
    (start_idx : Nat) : end_idx0 ck words start_idx ≤ words.length :=
  Nat.min_le_right _ _

lemma end_idx_le (ck : SemanticChunker) (words : List String)
    (start_idx : Nat) : end_idx ck words start_idx ≤ words.length := by
  unfold end_idx
  split
  · exact le_refl _
  · exact end_idx0_le ck words start_idx

lemma mkChunk_word_count (ck : SemanticChunker) (doc_id : String)
    (sec : Option String) (words : List String) (start_idx chunk_index : Nat) :
    (mkChunk ck doc_id sec words start_idx chunk_index).word_count =
      end_idx ck words start_idx - start_idx := by
  have h := end_idx_le ck words start_idx
  simp only [mkChunk, List.length_take, List.length_drop]
  omega

lemma mkChunk_chunk_index (ck : SemanticChunker) (doc_id : String)
    (sec : Option String) (words : List String) (start_idx chunk_index : Nat) :
    (mkChunk ck doc_id sec words start_idx chunk_index).chunk_index =
      chunk_index := rfl

lemma chunkLoop_step_last (ck : SemanticChunker) (doc_id : String)
    (sec : Option String) (words : List String) (fuel start_idx chunk_index : Nat)
    (hlt : start_idx < words.length)
    (hstop : words.length ≤ end_idx ck words start_idx) :
    chunkLoop ck doc_id sec words (fuel + 1) start_idx chunk_index =
      [mkChunk ck doc_id sec words start_idx chunk_index] := by
  simp only [chunkLoop, if_pos hlt, if_pos hstop]

lemma chunkLoop_step_cont (ck : SemanticChunker) (doc_id : String)
    (sec : Option String) (words : List String) (fuel start_idx chunk_index : Nat)
    (hlt : start_idx < words.length)
    (hcont : end_idx ck words start_idx < words.length) :
    chunkLoop ck doc_id sec words (fuel + 1) start_idx chunk_index =
      mkChunk ck doc_id sec words start_idx chunk_index ::
        chunkLoop ck doc_id sec words fuel
          (end_idx ck words start_idx - ck.chunk_overlap) (chunk_index + 1) := by
  simp only [chunkLoop, if_pos hlt, if_neg (not_le.mpr hcont)]

lemma chunkLoop_ne_nil (ck : SemanticChunker) (doc_id : String)
    (sec : Option String) (words : List String) (fuel start_idx chunk_index : Nat)
    (hlt : start_idx < words.length) (hf : 1 ≤ fuel) :
    chunkLoop ck doc_id sec words fuel start_idx chunk_index ≠ [] := by
  obtain ⟨fuel, rfl⟩ : ∃ f, fuel = f + 1 := ⟨fuel - 1, by omega⟩
  rcases le_or_lt words.length (end_idx ck words start_idx) with h | h
  · rw [chunkLoop_step_last ck doc_id sec words fuel start_idx chunk_index hlt h]
    simp
  · rw [chunkLoop_step_cont ck doc_id sec words fuel start_idx chunk_index hlt h]
    simp

lemma chunkLoop_indices (ck : SemanticChunker) (doc_id : String)
    (sec : Option String) (words : List String) :
    ∀ (fuel start_idx chunk_index : Nat),
      (chunkLoop ck doc_id sec words fuel start_idx chunk_index).map
          DocumentChunk.chunk_index =
        List.range' chunk_index
          (chunkLoop ck doc_id sec words fuel start_idx chunk_index).length := by
  intro fuel
  induction fuel with
  | zero => intro start_idx chunk_index; simp [chunkLoop]
  | succ fuel ih =>
    intro start_idx chunk_index
    by_cases hlt : start_idx < words.length
    · rcases le_or_lt words.length (end_idx ck words start_idx) with h | h
      · rw [chunkLoop_step_last ck doc_id sec words fuel start_idx chunk_index
          hlt h]
        simp [mkChunk_chunk_index, List.range'_one]
      · rw [chunkLoop_step_cont ck doc_id sec words fuel start_idx chunk_index
          hlt h]
        simp only [List.map_cons, mkChunk_chunk_index, List.length_cons,
          List.range'_succ, ih]
    · simp only [chunkLoop, if_neg hlt]
      simp

/-- A parsed document with two non-empty extracted sections of three words
each. -/
def twoSectionDoc : ParsedDocument :=
  { company_ticker := "T", filing_type := "10-K", filing_date := 0,
    content := "alpha beta gamma delta epsilon zeta",
    sections := [("item_1", "alpha beta gamma"), ("item_1a", "delta epsilon zeta")],
    source_path := "p", content_hash := "h", word_count := 6 }

/-- C3 counterexample: on a document with two non-empty sections the chunk
indices of `chunk_document` are [0, 0] — `_chunk_text` restarts its local
`chunk_index` at 0 for every section — so the index sequence of the whole
document is not strictly increasing and index 0 repeats. -/
theorem chunk_index_counterexample :
    (chunk_document defaultChunker twoSectionDoc).map
        DocumentChunk.chunk_index = [0, 0] ∧
      twoSectionDoc.sections.length = 2 ∧
      twoSectionDoc.sections.all (fun p => p.2 ≠ "") = true ∧
      ¬ List.Chain' (fun a b => a < b)
        ((chunk_document defaultChunker twoSectionDoc).map
          DocumentChunk.chunk_index) := by
  have hm : (chunk_document defaultChunker twoSectionDoc).map
      DocumentChunk.chunk_index = [0, 0] := by decide
  refine ⟨hm, by decide, by decide, ?_⟩
  rw [hm]
  intro h
  simp [List.chain'_cons] at h

/-- C3 amended: chunk indices are scoped per *section*, not per document:
`chunk_document` concatenates one `_chunk_text` call per section, and
within each such call the emitted chunks carry indices 0, 1, 2, …
(restarting at 0 at every section boundary), so chunk_index is unique and
increments by 1 only within a section's chunks, not across the whole
document. -/
theorem chunk_index_per_section (ck : SemanticChunker) (doc : ParsedDocument)
    (p : String × String) (hsec : doc.sections ≠ [])
    (hp : p ∈ doc.sections) :
    chunk_document ck doc =
      doc.sections.flatMap
        (fun q => _chunk_text ck q.2 doc.content_hash (some q.1)) ∧
      (_chunk_text ck p.2 doc.content_hash (some p.1)).map
          DocumentChunk.chunk_index =
        List.range
          (_chunk_text ck p.2 doc.content_hash (some p.1)).length := by
  constructor
  · unfold chunk_document
    rw [if_neg (by simpa using hsec)]
  · rw [List.range_eq_range']
    exact chunkLoop_indices ck doc.content_hash (some p.1) (pySplit p.2) _ 0 0

/-- Witness for C3 amended: instantiated on the two-section document and
its first section. -/
theorem chunk_index_per_section_witness :
    chunk_document defaultChunker twoSectionDoc =
      twoSectionDoc.sections.flatMap
        (fun q => _chunk_text defaultChunker q.2 twoSectionDoc.content_hash
          (some q.1)) ∧
      (_chunk_text defaultChunker "alpha beta gamma"
          twoSectionDoc.content_hash (some "item_1")).map
          DocumentChunk.chunk_index =
        List.range
          (_chunk_text defaultChunker "alpha beta gamma"
            twoSectionDoc.content_hash (some "item_1")).length :=
  chunk_index_per_section defaultChunker twoSectionDoc
    ("item_1", "alpha beta gamma") (by decide) (by decide)

/-- The character sequence of n words "w" separated by single spaces. -/
def wChars : Nat → List Char
  | 0 => []
  | 1 => ['w']
  | n + 2 => 'w' :: ' ' :: wChars (n + 1)

/-- A concrete 2,500-word text. -/
def text2500 : String := String.mk (wChars 2500)

lemma pySplitChars_wChars :
    ∀ n : Nat, pySplitChars (wChars (n + 1)) [] = List.replicate (n + 1) "w" := by
  intro n
  induction n with
  | zero => rfl
  | succ n ih =>
    rw [show pySplitChars (wChars (n + 1 + 1)) [] =
        "w" :: pySplitChars (wChars (n + 1)) [] from rfl, ih]
    simp [List.replicate_succ]

lemma text2500_words : pySplit text2500 = List.replicate 2500 "w" :=
  pySplitChars_wChars 2499

lemma length_w2500 : (List.replicate 2500 "w" : List String).length = 2500 :=
  List.length_replicate ..

lemma end_idx_2500_0 :
    end_idx defaultChunker (List.replicate 2500 "w") 0 = 1000 := by
  rw [end_idx, end_idx0, length_w2500]
  norm_num [defaultChunker, Nat.min_def]

lemma end_idx_2500_900 :
    end_idx defaultChunker (List.replicate 2500 "w") 900 = 1900 := by
  rw [end_idx, end_idx0, length_w2500]
  norm_num [defaultChunker, Nat.min_def]

lemma end_idx_2500_1800 :
    end_idx defaultChunker (List.replicate 2500 "w") 1800 = 2500 := by
  rw [end_idx, end_idx0, length_w2500]
  norm_num [defaultChunker, Nat.min_def]

lemma chunkLoop_unfold_cont (ck : SemanticChunker) (doc_id : String)
    (sec : Option String) (words : List String) (fuel start_idx chunk_index : Nat)
    (hf : 1 ≤ fuel) (hlt : start_idx < words.length)
    (hcont : end_idx ck words start_idx < words.length) :
    chunkLoop ck doc_id sec words fuel start_idx chunk_index =
      mkChunk ck doc_id sec words start_idx chunk_index ::
        chunkLoop ck doc_id sec words (fuel - 1)
          (end_idx ck words start_idx - ck.chunk_overlap) (chunk_index + 1) := by
  obtain ⟨f, rfl⟩ : ∃ f, fuel = f + 1 := ⟨fuel - 1, by omega⟩
  rw [chunkLoop_step_cont ck doc_id sec words f start_idx chunk_index hlt hcont]
  norm_num

lemma chunkLoop_unfold_last (ck : SemanticChunker) (doc_id : String)
    (sec : Option String) (words : List String) (fuel start_idx chunk_index : Nat)
    (hf : 1 ≤ fuel) (hlt : start_idx < words.length)
    (hstop : words.length ≤ end_idx ck words start_idx) :
    chunkLoop ck doc_id sec words fuel start_idx chunk_index =
      [mkChunk ck doc_id sec words start_idx chunk_index] := by
  obtain ⟨f, rfl⟩ : ∃ f, fuel = f + 1 := ⟨fuel - 1, by omega⟩
  exact chunkLoop_step_last ck doc_id sec words f start_idx chunk_index hlt hstop

lemma chunk_text2500 :
    _chunk_text defaultChunker text2500 "doc" none =
      [mkChunk defaultChunker "doc" none (List.replicate 2500 "w") 0 0,
       mkChunk defaultChunker "doc" none (List.replicate 2500 "w") 900 1,
       mkChunk defaultChunker "doc" none (List.replicate 2500 "w") 1800 2] := by
  show chunkLoop defaultChunker "doc" none (pySplit text2500)
      ((pySplit text2500).length + 1) 0 0 = _
  rw [text2500_words, length_w2500]
  rw [chunkLoop_unfold_cont defaultChunker "doc" none _ (2500 + 1) 0 0
      (by norm_num) (by rw [length_w2500]; norm_num)
      (by rw [end_idx_2500_0, length_w2500]; norm_num)]
  rw [end_idx_2500_0]
  rw [show (2500 : Nat) + 1 - 1 = 2500 from rfl,
    show (1000 : Nat) - defaultChunker.chunk_overlap = 900 from rfl]
  rw [chunkLoop_unfold_cont defaultChunker "doc" none _ 2500 900 (0 + 1)
      (by norm_num) (by rw [length_w2500]; norm_num)
      (by rw [end_idx_2500_900, length_w2500]; norm_num)]
  rw [end_idx_2500_900]
  rw [show (2500 : Nat) - 1 = 2499 from rfl,
    show (1900 : Nat) - defaultChunker.chunk_overlap = 1800 from rfl]
  rw [chunkLoop_unfold_last defaultChunker "doc" none _ 2499 1800 (0 + 1 + 1)
      (by norm_num) (by rw [length_w2500]; norm_num)
      (by rw [end_idx_2500_1800, length_w2500])]

lemma end_idx_of_lt (ck : SemanticChunker) (words : List String)
    (start_idx : Nat) (h : end_idx ck words start_idx < words.length) :
    end_idx ck words start_idx = start_idx + ck.chunk_size ∧
      ck.min_chunk_size ≤ words.length - end_idx ck words start_idx := by
  unfold end_idx end_idx0 at h ⊢
  split_ifs at h ⊢ with hx
  · omega
  · rcases Nat.le_total (start_idx + ck.chunk_size) words.length with hm | hm
    · rw [Nat.min_eq_left hm] at h hx ⊢
      omega
    · rw [Nat.min_eq_right hm] at h hx ⊢
      omega

lemma end_idx_stop_bound (ck : SemanticChunker) (words : List String)
    (start_idx : Nat) (h : words.length ≤ end_idx ck words start_idx) :
    words.length - start_idx ≤ ck.chunk_size + ck.min_chunk_size := by
  unfold end_idx end_idx0 at h
  rcases Nat.le_total (start_idx + ck.chunk_size) words.length with hm | hm
  · rw [Nat.min_eq_left hm] at h
    split_ifs at h with hx
    · omega
    · omega
  · omega

lemma chunkLoop_wc_aux (ck : SemanticChunker) (doc_id : String)
    (sec : Option String) (words : List String)
    (hov : ck.chunk_overlap < ck.chunk_size) :
    ∀ (fuel start_idx chunk_index i : Nat) (c : DocumentChunk),
      words.length - start_idx ≤ fuel → start_idx < words.length →
      (chunkLoop ck doc_id sec words fuel start_idx chunk_index).get? i =
        some c →
      (i + 1 <
          (chunkLoop ck doc_id sec words fuel start_idx chunk_index).length →
        c.word_count = ck.chunk_size) ∧
      (i + 1 =
          (chunkLoop ck doc_id sec words fuel start_idx chunk_index).length →
        c.word_count ≤ ck.chunk_size + ck.min_chunk_size ∧
        ((1 ≤ i ∨ ck.min_chunk_size ≤ words.length - start_idx) →
          ck.min_chunk_size ≤ c.word_count)) := by
  intro fuel
  induction fuel with
  | zero =>
    intro start_idx chunk_index i c hfu hlt hget
    exact absurd hlt (by omega)
  | succ fuel ih =>
    intro start_idx chunk_index i c hfu hlt hget
    rcases le_or_lt words.length (end_idx ck words start_idx) with hstop | hcont
    · rw [chunkLoop_step_last ck doc_id sec words fuel start_idx chunk_index
        hlt hstop] at hget ⊢
      cases i with
      | zero =>
        have hc : c = mkChunk ck doc_id sec words start_idx chunk_index := by
          simpa using hget.symm
        subst hc
        have hwc := mkChunk_word_count ck doc_id sec words start_idx chunk_index
        have hend : end_idx ck words start_idx = words.length :=
          le_antisymm (end_idx_le ck words start_idx) hstop
        constructor
        · intro h
          simp at h
        · intro _
          have hb := end_idx_stop_bound ck words start_idx hstop
          constructor
          · rw [hwc, hend]
            exact hb
          · intro hd
            rcases hd with hd | hd
            · omega
            · rw [hwc, hend]
              exact hd
      | succ i =>
        simp at hget
    · rw [chunkLoop_step_cont ck doc_id sec words fuel start_idx chunk_index
        hlt hcont] at hget ⊢
      obtain ⟨hE, hrem⟩ := end_idx_of_lt ck words start_idx hcont
      have hlt2 : end_idx ck words start_idx - ck.chunk_overlap <
          words.length := by omega
      have hfu2 : words.length -
          (end_idx ck words start_idx - ck.chunk_overlap) ≤ fuel := by omega
      have hne : chunkLoop ck doc_id sec words fuel
          (end_idx ck words start_idx - ck.chunk_overlap)
          (chunk_index + 1) ≠ [] :=
        chunkLoop_ne_nil ck doc_id sec words fuel _ _ hlt2 (by omega)
      cases i with
      | zero =>
        have hc : c = mkChunk ck doc_id sec words start_idx chunk_index := by
          simpa using hget.symm
        subst hc
        have hwc := mkChunk_word_count ck doc_id sec words start_idx chunk_index
        constructor
        · intro _
          rw [hwc, hE]
          omega
        · intro hlen
          exfalso
          simp only [List.length_cons] at hlen
          exact hne (List.length_eq_zero.mp (by omega))
      | succ i =>
        have hget2 : (chunkLoop ck doc_id sec words fuel
            (end_idx ck words start_idx - ck.chunk_overlap)
            (chunk_index + 1)).get? i = some c := by
          simpa using hget
        have IH := ih (end_idx ck words start_idx - ck.chunk_overlap)
          (chunk_index + 1) i c hfu2 hlt2 hget2
        constructor
        · intro h
          simp only [List.length_cons] at h
          exact IH.1 (by omega)
        · intro h
          simp only [List.length_cons] at h
          obtain ⟨hub, hlb⟩ := IH.2 (by omega)
          exact ⟨hub, fun _ => hlb (Or.inr (by omega))⟩

/-- C5 amended: with `chunk_overlap < chunk_size` (the documented
precondition) and `min_chunk_size ≤ chunk_size`, every chunk emitted by
`_chunk_text` except the final one has word_count exactly `chunk_size`
(hence within [min_chunk_size, chunk_size]); the final chunk may exceed
`chunk_size` by at most `min_chunk_size` when the remaining tail smaller
than `min_chunk_size` is merged in, and — whenever it is not the only
chunk of its section — has at least `min_chunk_size` words.  (A section
whose whole text is shorter than `min_chunk_size` words yields a single
chunk below `min_chunk_size`, so the claim's "no emitted chunk has
word_count below min_chunk_size" does not hold in general.) -/
theorem chunk_word_count_bounds (ck : SemanticChunker) (text doc_id : String)
    (sec : Option String) (hov : ck.chunk_overlap < ck.chunk_size)
    (hmin : ck.min_chunk_size ≤ ck.chunk_size) (i : Nat) (c : DocumentChunk)
    (hc : (_chunk_text ck text doc_id sec).get? i = some c) :
    (i + 1 < (_chunk_text ck text doc_id sec).length →
      ck.min_chunk_size ≤ c.word_count ∧ c.word_count ≤ ck.chunk_size) ∧
    (i + 1 = (_chunk_text ck text doc_id sec).length →
      c.word_count ≤ ck.chunk_size + ck.min_chunk_size ∧
      (1 ≤ i → ck.min_chunk_size ≤ c.word_count)) := by
  have hrepr : _chunk_text ck text doc_id sec =
      chunkLoop ck doc_id sec (pySplit text)
        ((pySplit text).length + 1) 0 0 := rfl
  rw [hrepr] at hc ⊢
  by_cases h0 : 0 < (pySplit text).length
  · have H := chunkLoop_wc_aux ck doc_id sec (pySplit text) hov
      ((pySplit text).length + 1) 0 0 i c (by omega) h0 hc
    constructor
    · intro hlt
      have hcs := H.1 hlt
      exact ⟨by omega, by omega⟩
    · intro heq
      obtain ⟨hub, hlb⟩ := H.2 heq
      exact ⟨hub, fun h1 => hlb (Or.inl h1)⟩
  · exfalso
    have hnil : chunkLoop ck doc_id sec (pySplit text)
        ((pySplit text).length + 1) 0 0 = [] := by
      simp only [chunkLoop]
      rw [if_neg (by omega : ¬ (0 : Nat) < (pySplit text).length)]
    rw [hnil] at hc
    simp at hc

/-- Witness for C5 amended: the final chunk of the 2,500-word text (index
2, a 700-word chunk) satisfies the stated bounds. -/
theorem chunk_word_count_bounds_witness :
    (2 + 1 < (_chunk_text defaultChunker text2500 "doc" none).length →
      defaultChunker.min_chunk_size ≤
          (mkChunk defaultChunker "doc" none
            (List.replicate 2500 "w") 1800 2).word_count ∧
        (mkChunk defaultChunker "doc" none
          (List.replicate 2500 "w") 1800 2).word_count ≤
          defaultChunker.chunk_size) ∧
    (2 + 1 = (_chunk_text defaultChunker text2500 "doc" none).length →
      (mkChunk defaultChunker "doc" none
          (List.replicate 2500 "w") 1800 2).word_count ≤
          defaultChunker.chunk_size + defaultChunker.min_chunk_size ∧
      (1 ≤ 2 → defaultChunker.min_chunk_size ≤
        (mkChunk defaultChunker "doc" none
          (List.replicate 2500 "w") 1800 2).word_count)) :=
  chunk_word_count_bounds defaultChunker text2500 "doc" none
    (by norm_num [defaultChunker]) (by norm_num [defaultChunker]) 2
    (mkChunk defaultChunker "doc" none (List.replicate 2500 "w") 1800 2)
    (by rw [chunk_text2500]; rfl)

/-- C5 counterexample: a one-word section text produces a single chunk
with word_count 1, strictly below the default min_chunk_size of 200 — an
emitted chunk below `min_chunk_size`, which the claim rules out for every
input. -/
theorem chunk_min_size_counterexample :
    (_chunk_text defaultChunker "hello" "doc" none).map
        DocumentChunk.word_count = [1] ∧
      (1 : Nat) < defaultChunker.min_chunk_size ∧
      defaultChunker.chunk_overlap < defaultChunker.chunk_size := by
  exact ⟨by decide, by decide, by decide⟩

/-- C4 counterexample: chunking the concrete 2,500-word text with the
default configuration (chunk_size 1000, overlap 100, min_chunk_size 200)
yields word counts [1000, 1000, 700], not [1000, 1000, 500]: after two
chunks the window has advanced to word 1800 (each step advances by
chunk_size − overlap = 900), leaving a 700-word tail. -/
theorem chunk_2500_counterexample :
    pySplit text2500 = List.replicate 2500 "w" ∧
      (_chunk_text defaultChunker text2500 "doc" none).map
          DocumentChunk.word_count = [1000, 1000, 700] ∧
      (_chunk_text defaultChunker text2500 "doc" none).map
          DocumentChunk.word_count ≠ [1000, 1000, 500] := by
  have hm : (_chunk_text defaultChunker text2500 "doc" none).map
      DocumentChunk.word_count = [1000, 1000, 700] := by
    rw [chunk_text2500]
    simp only [List.map_cons, List.map_nil, mkChunk_word_count,
      end_idx_2500_0, end_idx_2500_900, end_idx_2500_1800]
  exact ⟨text2500_words, hm, by rw [hm]; decide⟩

/-- C4 amended: chunking a 2,500-word text with chunk_size=1000,
overlap=100, min_chunk_size=200 yields exactly three chunks with word
counts [1000, 1000, 700] and chunk_index values [0, 1, 2] (the 700-word
tail is at least min_chunk_size, so no merge occurs). -/
theorem chunk_2500_words_sizes :
    (_chunk_text defaultChunker text2500 "doc" none).length = 3 ∧
      (_chunk_text defaultChunker text2500 "doc" none).map
          DocumentChunk.word_count = [1000, 1000, 700] ∧
      (_chunk_text defaultChunker text2500 "doc" none).map
          DocumentChunk.chunk_index = [0, 1, 2] := by
  refine ⟨by rw [chunk_text2500]; rfl, ?_, by rw [chunk_text2500]; rfl⟩
  rw [chunk_text2500]
  simp only [List.map_cons, List.map_nil, mkChunk_word_count,
    end_idx_2500_0, end_idx_2500_900, end_idx_2500_1800]

/-- C6: the leadership-excluded report weights are each original weight
divided by 0.80 — tech-hiring 0.375, innovation 0.3125, digital 0.3125 —
they sum exactly to 1, and when all three category scores are 100 the
renormalized composite equals 100. -/
theorem renormalized_weights_correct :
    W_TECH = 0.375 ∧ W_INNOVATION = 0.3125 ∧ W_DIGITAL = 0.3125 ∧
      W_TECH + W_INNOVATION + W_DIGITAL = 1 ∧
      composite_without_leadership 100 100 100 = 100 := by
  refine ⟨by norm_num [W_TECH], by norm_num [W_INNOVATION],
    by norm_num [W_DIGITAL], by norm_num [W_TECH, W_INNOVATION, W_DIGITAL], ?_⟩
  norm_num [composite_without_leadership, W_TECH, W_INNOVATION, W_DIGITAL,
    roundTo1, round_eq]

/-- Truthiness of a source's "text" exactly as `analyze_leadership` tests
it (`website_data and website_data.get("text")`): present and non-empty. -/
def hasText : Option SourceData → Bool
  | none => false
  | some d => d.text ≠ ""

/-- A website source whose text is non-empty but shorter than the 80
character `MIN_TEXT_LENGTH`. -/
def shortLeadText : SourceData := { text := "ceo", url := "https://x.com" }

/-- C8 counterexample: `analyze_leadership` emits a signal for a source
whose text is non-empty but only 3 characters long — far below the
80-character `MIN_TEXT_LENGTH` — because the length threshold is applied
only in the fetch step, never by `analyze_leadership`. -/
theorem analyze_leadership_counterexample :
    (analyze_leadership 0 0 (some shortLeadText) none).length = 1 ∧
      shortLeadText.text ≠ "" ∧
      shortLeadText.text.length < MIN_TEXT_LENGTH := by
  exact ⟨by decide, by decide, by decide⟩

/-- C8 amended: `analyze_leadership` returns an empty list of signals
exactly when no text source has a *non-empty* text ("" or an absent
source contributes nothing, distinctly per source); the 80-character
minimum length threshold (`MIN_TEXT_LENGTH`) is enforced upstream by the
page-fetch step, not by `analyze_leadership`, so a non-empty text shorter
than 80 characters still yields a signal. -/
theorem analyze_leadership_empty_iff (company_id : Nat) (now : Int)
    (website_data linkedin_data : Option SourceData) :
    analyze_leadership company_id now website_data linkedin_data = [] ↔
      (hasText website_data = false ∧ hasText linkedin_data = false) := by
  unfold analyze_leadership hasText
  cases website_data with
  | none =>
    cases linkedin_data with
    | none => simp
    | some d => by_cases h : d.text = "" <;> simp [h]
  | some d =>
    cases linkedin_data with
    | none => by_cases h : d.text = "" <;> simp [h]
    | some d2 =>
      by_cases h : d.text = "" <;> by_cases h2 : d2.text = "" <;>
        simp [h, h2]

end CaseStudy
